import Mathlib

/-!
Verification of the CLEO setup command (`opendut-cleo/src/commands/setup.rs`).

The development shallowly embeds the data model (`CleoSetup`, `AuthConfig`),
the fragment of `toml_edit` document editing the command uses, the
persistent-mode materializer `prepare_cleo_configuration`, the ephemeral-mode
environment-variable construction in `SetupCli::execute`, and the external
calls (`try_write_certificate`, `write_config`) as a record of their arguments.
-/

namespace CleoSetupVerification

/-- A run-time failure of the command.  `panic` models a Rust panic raised by
`.expect(..)` / `.unwrap()` (the process aborts with the message and a
non-zero status); `err` models an ordinary `Err` value returned through
`crate::Result` (reported by the CLI layer, also exiting non-zero). -/
inductive RunError where
  | panic : String → RunError
  | err : String → RunError
deriving DecidableEq, Repr

/-- The accessors of `url::Url` the setup command uses: `host_str()`,
`port()`, and the textual form (`Display` / `Into<String>`). -/
structure Url where
  host_str : Option String
  port : Option Nat
  asString : String
deriving DecidableEq, Repr

/-- `opendut_types::util::net::Certificate`; the command only re-encodes it as
a string (`encode_as_string`) or hands its bytes to the certificate writer,
so the model keeps the encoded text. -/
structure Certificate where
  encode_as_string : String
deriving DecidableEq, Repr

/-- `ClientId`; `value()` yields the inner string. -/
structure ClientId where
  value : String
deriving DecidableEq, Repr

/-- `ClientSecret`; `value()` yields the inner string. -/
structure ClientSecret where
  value : String
deriving DecidableEq, Repr

/-- An OAuth scope; `value()` yields the inner string. -/
structure Scope where
  value : String
deriving DecidableEq, Repr

/-- `opendut_types::util::net::AuthConfig`. -/
inductive AuthConfig where
  | disabled : AuthConfig
  | enabled : (issuer_url : Url) → (client_id : ClientId) →
      (client_secret : ClientSecret) → (scopes : List Scope) → AuthConfig
deriving DecidableEq, Repr

/-- `opendut_types::cleo::CleoSetup`, the decoded setup bundle.  The `id`
field is never read by the setup command and is omitted. -/
structure CleoSetup where
  carl : Url
  ca : Certificate
  auth_config : AuthConfig
deriving DecidableEq, Repr

/-- `opendut_util::settings::SetupType`, the persistence scope. -/
inductive SetupType where
  | system : SetupType
  | user : SetupType
deriving DecidableEq, Repr

/-- `CleoSetupType`, the CLI `--persistent` value enum. -/
inductive CleoSetupType where
  | system : CleoSetupType
  | user : CleoSetupType
deriving DecidableEq, Repr

/-- `impl From<CleoSetupType> for SetupType`. -/
def setupTypeFrom : CleoSetupType → SetupType
  | CleoSetupType.user => SetupType.user
  | CleoSetupType.system => SetupType.system

/-! ## The `toml_edit` document fragment

`prepare_cleo_configuration` uses: `DocumentMut::new()`, `get`, index
assignment `doc[k1]..[kn] = item` (which auto-creates missing intermediate
tables), `toml_edit::table()`, `toml_edit::value(..)`, and
`set_dotted(true)` on a table.  A document is a tree of tables (ordered
association lists, with their dotted rendering flag) and leaf values. -/

/-- A TOML leaf value of the kinds the command writes. -/
inductive TomlValue where
  | str : String → TomlValue
  | int : Int → TomlValue
  | bool : Bool → TomlValue
deriving DecidableEq, Repr

/-- A `toml_edit` item: a leaf value or a table (with its `dotted` flag and
its ordered key/item list). -/
inductive Item where
  | value : TomlValue → Item
  | table : Bool → List (String × Item) → Item

/-- `DocumentMut::new()`: an empty (non-dotted) root table. -/
def emptyDoc : Item := Item.table false []

/-- `toml_edit::table()`: a fresh empty table. -/
def freshTable : Item := Item.table false []

/-- Lookup in a table's ordered key/item list. -/
def lookupKey : List (String × Item) → String → Option Item
  | [], _ => none
  | (k, it) :: rest, key => if k = key then some it else lookupKey rest key

/-- Replace the item of an existing key in place, or append the key at the
end — the behaviour of `toml_edit`'s table entry insertion. -/
def insertKey : List (String × Item) → String → Item → List (String × Item)
  | [], key, v => [(key, v)]
  | (k, it) :: rest, key, v =>
      if k = key then (k, v) :: rest else (k, it) :: insertKey rest key v

/-- Chained `get` calls: `doc.get(k1).and_then(|x| x.get(k2))…`; `get` on a
non-table item yields `None`. -/
def getPath : Item → List String → Option Item
  | it, [] => some it
  | Item.table _ kvs, key :: rest =>
      match lookupKey kvs key with
      | some it => getPath it rest
      | none => none
  | Item.value _, _ :: _ => none

/-- Index assignment `doc[k1]..[kn] = v`: walks the path, reusing an existing
table at each step and otherwise creating a fresh implicit table (the
`IndexMut` behaviour of `toml_edit`), then stores `v` at the final key.
Assigning into a leaf value panics in `toml_edit`; that situation is
unreachable in every use below (the document always starts empty), and the
model keeps the item unchanged there. -/
def setPath : Item → List String → Item → Item
  | _, [], v => v
  | Item.table d kvs, [key], v => Item.table d (insertKey kvs key v)
  | Item.table d kvs, key :: rest, v =>
      let sub :=
        match lookupKey kvs key with
        | some (Item.table d2 kvs2) => Item.table d2 kvs2
        | _ => Item.table false []
      Item.table d (insertKey kvs key (setPath sub rest v))
  | Item.value w, _ :: _, _ => Item.value w

/-- `doc[..].as_table_mut().unwrap().set_dotted(true)` at the given path:
marks the table there as dotted.  Anything else at the path is left
unchanged (unreachable in every use below). -/
def setDottedAt : Item → List String → Item
  | Item.table _ kvs, [] => Item.table true kvs
  | Item.table d kvs, key :: rest =>
      match lookupKey kvs key with
      | some it => Item.table d (insertKey kvs key (setDottedAt it rest))
      | none => Item.table d kvs
  | it, _ => it

/-- The keys of a table item (empty for a leaf). -/
def keysOf : Item → List String
  | Item.table _ kvs => kvs.map Prod.fst
  | Item.value _ => []

/-! ## The persistent-mode materializer -/

/-- Lines 76–80: if `network.carl` is absent, set `network` to a fresh table,
`network.carl` to a fresh table, and mark `network.carl` dotted. -/
def ensureNetworkCarl (doc : Item) : Item :=
  if (getPath doc ["network", "carl"]).isNone then
    setDottedAt
      (setPath (setPath doc ["network"] freshTable) ["network", "carl"] freshTable)
      ["network", "carl"]
  else doc

/-- Lines 86–88 (`AuthConfig::Disabled` arm): if `network.oidc` is absent,
set it to a fresh table. -/
def ensureNetworkOidcDisabled (doc : Item) : Item :=
  if (getPath doc ["network", "oidc"]).isNone then
    setPath doc ["network", "oidc"] freshTable
  else doc

/-- Lines 97–104 (`AuthConfig::Enabled` arm): if `network.oidc` is absent,
create `network.oidc`, `network.tls`, and the dotted
`network.tls.domain.name` chain. -/
def ensureNetworkOidcTlsEnabled (doc : Item) : Item :=
  if (getPath doc ["network", "oidc"]).isNone then
    let doc := setPath doc ["network", "oidc"] freshTable
    let doc := setPath doc ["network", "tls"] freshTable
    let doc := setPath doc ["network", "tls", "domain"] freshTable
    let doc := setDottedAt doc ["network", "tls", "domain"]
    let doc := setPath doc ["network", "tls", "domain", "name"] freshTable
    setDottedAt doc ["network", "tls", "domain", "name"]
  else doc

/-- Lines 109–117: if `network.oidc.client` is absent, create
`network.oidc.client` and the dotted `network.oidc.client.issuer` table. -/
def ensureNetworkOidcClient (doc : Item) : Item :=
  if (getPath doc ["network", "oidc", "client"]).isNone then
    let doc := setPath doc ["network", "oidc", "client"] freshTable
    let doc := setPath doc ["network", "oidc", "client", "issuer"] freshTable
    setDottedAt doc ["network", "oidc", "client", "issuer"]
  else doc

/-- `prepare_cleo_configuration` (lines 70–126).  The document starts from
`DocumentMut::new()`; `host_str().expect(..)` is a panic when the CARL URL
has no host; `port().unwrap_or(443)` defaults the port; the path's string
form is the CA value.  The result is the final document (the Rust function
returns its rendering `to_string()`). -/
def prepare_cleo_configuration (setup_string : CleoSetup) (cleo_ca_path : String) :
    Except RunError Item :=
  match setup_string.carl.host_str with
  | none => Except.error (RunError.panic "Host name should be defined in CARL URL.")
  | some carl_host =>
    let carl_port : Int := Int.ofNat (setup_string.carl.port.getD 443)
    let doc := ensureNetworkCarl emptyDoc
    let doc := setPath doc ["network", "carl", "host"] (Item.value (TomlValue.str carl_host))
    let doc := setPath doc ["network", "carl", "port"] (Item.value (TomlValue.int carl_port))
    match setup_string.auth_config with
    | AuthConfig.disabled =>
        let doc := ensureNetworkOidcDisabled doc
        Except.ok (setPath doc ["network", "oidc", "enabled"] (Item.value (TomlValue.bool false)))
    | AuthConfig.enabled issuer_url client_id client_secret scopes =>
        let network_oidc_client_id := client_id.value
        let network_oidc_client_secret := client_secret.value
        let network_oidc_client_issuer_url : String := issuer_url.asString
        let network_oidc_client_scopes :=
          String.intercalate "," (scopes.map Scope.value)
        let doc := ensureNetworkOidcTlsEnabled doc
        let doc := setPath doc ["network", "oidc", "enabled"] (Item.value (TomlValue.bool true))
        let doc := setPath doc ["network", "tls", "ca"] (Item.value (TomlValue.str cleo_ca_path))
        let doc := setPath doc ["network", "tls", "domain", "name", "override"]
          (Item.value (TomlValue.str carl_host))
        let doc := ensureNetworkOidcClient doc
        let doc := setPath doc ["network", "oidc", "client", "id"]
          (Item.value (TomlValue.str network_oidc_client_id))
        let doc := setPath doc ["network", "oidc", "client", "secret"]
          (Item.value (TomlValue.str network_oidc_client_secret))
        let doc := setPath doc ["network", "oidc", "client", "scopes"]
          (Item.value (TomlValue.str network_oidc_client_scopes))
        Except.ok (setPath doc ["network", "oidc", "client", "issuer", "url"]
          (Item.value (TomlValue.str network_oidc_client_issuer_url)))

/-! ## The ephemeral mode (`SetupCli::execute`, `None` arm, lines 32–64) -/

/-- The environment-variable lines built by the ephemeral arm, in order.
`formatdoc!` renders each block as these lines, one per line;
`host_str().expect(..)` is a panic when the CARL URL has no host. -/
def execute_ephemeral_lines (setup_string : CleoSetup) : Except RunError (List String) :=
  match setup_string.carl.host_str with
  | none => Except.error (RunError.panic "Host name should be defined in CARL URL.")
  | some carl_host =>
    let carl_port := setup_string.carl.port.getD 443
    let ca_content := setup_string.ca.encode_as_string
    let base := [
      "OPENDUT_CLEO_NETWORK_TLS_DOMAIN_NAME_OVERRIDE=" ++ carl_host,
      "OPENDUT_CLEO_NETWORK_TLS_CA_CONTENT=\"" ++ ca_content ++ "\"",
      "OPENDUT_CLEO_NETWORK_CARL_HOST=" ++ carl_host,
      "OPENDUT_CLEO_NETWORK_CARL_PORT=" ++ toString carl_port]
    match setup_string.auth_config with
    | AuthConfig.disabled =>
        Except.ok (base ++ ["OPENDUT_CLEO_NETWORK_OIDC_ENABLED=false"])
    | AuthConfig.enabled issuer_url client_id client_secret _scopes =>
        let id := client_id.value
        let secret := client_secret.value
        Except.ok (base ++ [
          "OPENDUT_CLEO_NETWORK_OIDC_ENABLED=true",
          "OPENDUT_CLEO_NETWORK_OIDC_CLIENT_ISSUER_URL=" ++ issuer_url.asString,
          "OPENDUT_CLEO_NETWORK_OIDC_CLIENT_ID=" ++ id,
          "OPENDUT_CLEO_NETWORK_OIDC_CLIENT_SECRET=" ++ secret,
          "OPENDUT_CLEO_NETWORK_OIDC_CLIENT_SCOPES=\"\""])

/-- The printed ephemeral output: the lines joined with newlines, with the
trailing newline `formatdoc!` leaves after each block. -/
def execute_ephemeral_output (setup_string : CleoSetup) : Except RunError String :=
  (execute_ephemeral_lines setup_string).map
    (fun lines => String.intercalate "\n" lines ++ "\n")

/-! ## The persistent mode (`SetupCli::execute`, `Some` arm, lines 26–31) -/

/-- The arguments the persistent arm passes to its two external collaborators:
`try_write_certificate("cleo", ca bytes, SetupType::from(persistence_type))`
and `write_config("cleo", document text, SetupType::User)`. -/
structure PersistentRun where
  certificate_component : String
  certificate : Certificate
  certificate_scope : SetupType
  config_component : String
  config_document : Item
  config_scope : SetupType

/-- The persistent arm of `SetupCli::execute`: writes the certificate at the
scope converted from the CLI choice, builds the configuration with
`prepare_cleo_configuration` using the path the certificate writer returned
(`cleo_certificate_path`, an external collaborator's result, here a
parameter), and writes the configuration at `SetupType::User`. -/
def execute_persistent (setup_string : CleoSetup) (persistence_type : CleoSetupType)
    (cleo_certificate_path : String) : Except RunError PersistentRun :=
  match prepare_cleo_configuration setup_string cleo_certificate_path with
  | Except.error e => Except.error e
  | Except.ok doc =>
      Except.ok {
        certificate_component := "cleo"
        certificate := setup_string.ca
        certificate_scope := setupTypeFrom persistence_type
        config_component := "cleo"
        config_document := doc
        config_scope := SetupType.user }

/-- The effect of a persistent-mode run on a pre-existing configuration
document: `prepare_cleo_configuration` builds the new document from
`DocumentMut::new()` — the pre-existing document is never read — and
`write_config` replaces the stored configuration with the new text, so the
result is independent of `base`. -/
def materializePersistent (setup_string : CleoSetup) (cleo_ca_path : String)
    (_base : Item) : Except RunError Item :=
  prepare_cleo_configuration setup_string cleo_ca_path

/-! ## Result discriminators and concrete sample inputs -/

/-- Whether a run ended in a Rust panic (an `.expect(..)` abort). -/
def isPanicResult {α : Type} : Except RunError α → Bool
  | Except.error (RunError.panic _) => true
  | _ => false

/-- Whether a run ended in an ordinary `Err` result returned through
`crate::Result`. -/
def isErrResult {α : Type} : Except RunError α → Bool
  | Except.error (RunError.err _) => true
  | _ => false

/-- The bundle of the repository's `prepare_cleo_configuration_with_auth_config_enabled`
test: CARL URL `https://carl:1234/`, OIDC enabled with issuer
`https://auth:1234/`, client `testClient`/`secret`, no scopes. -/
def sampleEnabledSetup : CleoSetup := {
  carl := { host_str := some "carl", port := some 1234, asString := "https://carl:1234/" }
  ca := { encode_as_string := "PEM" }
  auth_config := AuthConfig.enabled
    { host_str := some "auth", port := some 1234, asString := "https://auth:1234/" }
    { value := "testClient" } { value := "secret" } [] }

/-- The bundle of the repository's `prepare_cleo_configuration_with_auth_config_disabled`
test: CARL URL `https://carl:1234/`, OIDC disabled. -/
def sampleDisabledSetup : CleoSetup := {
  carl := { host_str := some "carl", port := some 1234, asString := "https://carl:1234/" }
  ca := { encode_as_string := "PEM" }
  auth_config := AuthConfig.disabled }

/-- A bundle whose CARL URL has no explicit port. -/
def samplePortlessSetup : CleoSetup := {
  carl := { host_str := some "carl", port := none, asString := "https://carl/" }
  ca := { encode_as_string := "PEM" }
  auth_config := AuthConfig.disabled }

/-- A bundle whose CARL URL has no host component. -/
def sampleHostlessSetup : CleoSetup := {
  carl := { host_str := none, port := none, asString := "unix:/run/carl.sock" }
  ca := { encode_as_string := "PEM" }
  auth_config := AuthConfig.disabled }

/-- The document `prepare_cleo_configuration` produces for
`sampleDisabledSetup` (any certificate path). -/
def sampleDisabledDoc : Item :=
  Item.table false [("network", Item.table false [
    ("carl", Item.table true [
      ("host", Item.value (TomlValue.str "carl")),
      ("port", Item.value (TomlValue.int 1234))]),
    ("oidc", Item.table false [
      ("enabled", Item.value (TomlValue.bool false))])])]

/-- The external-call record of a persistent run of `sampleDisabledSetup`
with `--persistent system` and certificate path `/p`. -/
def sampleDisabledRun : PersistentRun := {
  certificate_component := "cleo"
  certificate := { encode_as_string := "PEM" }
  certificate_scope := SetupType.system
  config_component := "cleo"
  config_document := sampleDisabledDoc
  config_scope := SetupType.user }

/-- A document in which `network.carl`, `network.oidc` and
`network.oidc.client` all already exist. -/
def sampleGroupsPresentDoc : Item :=
  Item.table false [("network", Item.table false [
    ("carl", Item.table false [("extra", Item.value (TomlValue.str "keep"))]),
    ("oidc", Item.table false [
      ("client", Item.table false [])])])]

/-- A base document holding an unrelated top-level key `custom`. -/
def sampleCustomBaseDoc : Item :=
  Item.table false [("custom", Item.value (TomlValue.str "keep"))]

/-- A bundle with OIDC enabled and two scopes. -/
def sampleScopedSetup : CleoSetup := {
  carl := { host_str := some "carl", port := some 1234, asString := "https://carl:1234/" }
  ca := { encode_as_string := "PEM" }
  auth_config := AuthConfig.enabled
    { host_str := some "auth", port := some 1234, asString := "https://auth:1234/" }
    { value := "testClient" } { value := "secret" } [{ value := "a" }, { value := "b" }] }

/-- The table an index step continues into: an existing table is reused,
anything else is replaced by a fresh implicit table. -/
def subTableOf : Option Item → Item
  | some (Item.table d2 kvs2) => Item.table d2 kvs2
  | _ => Item.table false []

/-! ## Evaluation lemmas for the document operations -/

@[simp] theorem lookupKey_nil (key : String) : lookupKey [] key = none := rfl

@[simp] theorem lookupKey_cons (k : String) (it : Item) (rest : List (String × Item))
    (key : String) :
    lookupKey ((k, it) :: rest) key = if k = key then some it else lookupKey rest key := rfl

@[simp] theorem insertKey_nil (key : String) (v : Item) : insertKey [] key v = [(key, v)] := rfl

@[simp] theorem insertKey_cons (k : String) (it : Item) (rest : List (String × Item))
    (key : String) (v : Item) :
    insertKey ((k, it) :: rest) key v =
      if k = key then (k, v) :: rest else (k, it) :: insertKey rest key v := rfl

@[simp] theorem getPath_nil (it : Item) : getPath it [] = some it := by
  cases it <;> rfl

@[simp] theorem getPath_value_cons (w : TomlValue) (key : String) (rest : List String) :
    getPath (Item.value w) (key :: rest) = none := rfl

@[simp] theorem getPath_table_cons (d : Bool) (kvs : List (String × Item)) (key : String)
    (rest : List String) :
    getPath (Item.table d kvs) (key :: rest) =
      Option.bind (lookupKey kvs key) (fun it => getPath it rest) := by
  cases hl : lookupKey kvs key <;> simp [getPath, hl]

@[simp] theorem setPath_single (d : Bool) (kvs : List (String × Item)) (key : String)
    (v : Item) :
    setPath (Item.table d kvs) [key] v = Item.table d (insertKey kvs key v) := rfl

@[simp] theorem subTableOf_none : subTableOf none = Item.table false [] := rfl

@[simp] theorem subTableOf_some_table (d2 : Bool) (kvs2 : List (String × Item)) :
    subTableOf (some (Item.table d2 kvs2)) = Item.table d2 kvs2 := rfl

@[simp] theorem subTableOf_some_value (w : TomlValue) :
    subTableOf (some (Item.value w)) = Item.table false [] := rfl

@[simp] theorem setPath_cons_cons (d : Bool) (kvs : List (String × Item))
    (key k2 : String) (rest : List String) (v : Item) :
    setPath (Item.table d kvs) (key :: k2 :: rest) v =
      Item.table d (insertKey kvs key
        (setPath (subTableOf (lookupKey kvs key)) (k2 :: rest) v)) := by
  cases hl : lookupKey kvs key with
  | none => simp [setPath, hl, subTableOf]
  | some it => cases it <;> simp [setPath, hl, subTableOf]

@[simp] theorem setDottedAt_table_nil (d : Bool) (kvs : List (String × Item)) :
    setDottedAt (Item.table d kvs) [] = Item.table true kvs := rfl

@[simp] theorem setDottedAt_table_cons (d : Bool) (kvs : List (String × Item))
    (key : String) (rest : List String) :
    setDottedAt (Item.table d kvs) (key :: rest) =
      match lookupKey kvs key with
      | some it => Item.table d (insertKey kvs key (setDottedAt it rest))
      | none => Item.table d kvs := by
  cases hl : lookupKey kvs key <;> simp [setDottedAt, hl]

/-! ## Claims -/

/-- C1: for every setup bundle with `authConfig = Enabled` and every
certificate path, the persistent-mode document contains
`network.oidc.enabled = true`, `network.tls.ca` = the certificate path's
string form, `network.tls.domain.name.override` = the bundle host,
`network.oidc.client.id` / `network.oidc.client.secret` = the client id and
secret values, and `network.oidc.client.issuer.url` = the issuer URL as a
plain string. -/
theorem persistent_enabled_keys (s : CleoSetup) (p h : String) (issuer : Url)
    (cid : ClientId) (csec : ClientSecret) (scopes : List Scope)
    (hhost : s.carl.host_str = some h)
    (hauth : s.auth_config = AuthConfig.enabled issuer cid csec scopes) :
    ∃ doc, prepare_cleo_configuration s p = Except.ok doc ∧
      getPath doc ["network", "oidc", "enabled"] =
        some (Item.value (TomlValue.bool true)) ∧
      getPath doc ["network", "tls", "ca"] =
        some (Item.value (TomlValue.str p)) ∧
      getPath doc ["network", "tls", "domain", "name", "override"] =
        some (Item.value (TomlValue.str h)) ∧
      getPath doc ["network", "oidc", "client", "id"] =
        some (Item.value (TomlValue.str cid.value)) ∧
      getPath doc ["network", "oidc", "client", "secret"] =
        some (Item.value (TomlValue.str csec.value)) ∧
      getPath doc ["network", "oidc", "client", "issuer", "url"] =
        some (Item.value (TomlValue.str issuer.asString)) := by
  obtain ⟨⟨chost, cport, cstr⟩, ca, auth⟩ := s
  cases hhost
  cases hauth
  refine ⟨_, rfl, ?_, ?_, ?_, ?_, ?_, ?_⟩ <;>
    simp [prepare_cleo_configuration, ensureNetworkCarl, ensureNetworkOidcTlsEnabled,
      ensureNetworkOidcClient, emptyDoc, freshTable]

/-- Witness for C1 at the repository's enabled-auth test bundle. -/
theorem persistent_enabled_keys_witness :
    ∃ doc, prepare_cleo_configuration sampleEnabledSetup "/test/path/config.toml" =
        Except.ok doc ∧
      getPath doc ["network", "oidc", "enabled"] =
        some (Item.value (TomlValue.bool true)) ∧
      getPath doc ["network", "tls", "ca"] =
        some (Item.value (TomlValue.str "/test/path/config.toml")) ∧
      getPath doc ["network", "tls", "domain", "name", "override"] =
        some (Item.value (TomlValue.str "carl")) ∧
      getPath doc ["network", "oidc", "client", "id"] =
        some (Item.value (TomlValue.str "testClient")) ∧
      getPath doc ["network", "oidc", "client", "secret"] =
        some (Item.value (TomlValue.str "secret")) ∧
      getPath doc ["network", "oidc", "client", "issuer", "url"] =
        some (Item.value (TomlValue.str "https://auth:1234/")) :=
  persistent_enabled_keys sampleEnabledSetup "/test/path/config.toml" "carl"
    { host_str := some "auth", port := some 1234, asString := "https://auth:1234/" }
    { value := "testClient" } { value := "secret" } [] rfl rfl

/-- C2: for every setup bundle with `authConfig = Disabled` and every
certificate path, the persistent-mode document contains
`network.carl.host` = the bundle host and `network.oidc.enabled = false`,
and contains no key under `network.tls`. -/
theorem persistent_disabled_keys (s : CleoSetup) (p h : String)
    (hhost : s.carl.host_str = some h)
    (hauth : s.auth_config = AuthConfig.disabled) :
    ∃ doc, prepare_cleo_configuration s p = Except.ok doc ∧
      getPath doc ["network", "carl", "host"] =
        some (Item.value (TomlValue.str h)) ∧
      getPath doc ["network", "oidc", "enabled"] =
        some (Item.value (TomlValue.bool false)) ∧
      getPath doc ["network", "tls"] = none := by
  obtain ⟨⟨chost, cport, cstr⟩, ca, auth⟩ := s
  cases hhost
  cases hauth
  refine ⟨_, rfl, ?_, ?_, ?_⟩ <;>
    simp [prepare_cleo_configuration, ensureNetworkCarl, ensureNetworkOidcDisabled,
      emptyDoc, freshTable]

/-- Witness for C2 at the repository's disabled-auth test bundle. -/
theorem persistent_disabled_keys_witness :
    ∃ doc, prepare_cleo_configuration sampleDisabledSetup "/test/path/config.toml" =
        Except.ok doc ∧
      getPath doc ["network", "carl", "host"] =
        some (Item.value (TomlValue.str "carl")) ∧
      getPath doc ["network", "oidc", "enabled"] =
        some (Item.value (TomlValue.bool false)) ∧
      getPath doc ["network", "tls"] = none :=
  persistent_disabled_keys sampleDisabledSetup "/test/path/config.toml" "carl" rfl rfl

/-- C3: the persistent-mode merge is idempotent — running the materialization
again on its own output yields the same document (the materializer never
reads the previous document), and each "ensure group exists" step is a no-op
when the group it checks is already present. -/
theorem persistent_merge_idempotent :
    (∀ (s : CleoSetup) (p : String) (base : Item),
        (materializePersistent s p base).bind
            (fun doc => materializePersistent s p doc) =
          materializePersistent s p base)
  ∧ (∀ doc : Item, (getPath doc ["network", "carl"]).isSome = true →
        ensureNetworkCarl doc = doc)
  ∧ (∀ doc : Item, (getPath doc ["network", "oidc"]).isSome = true →
        ensureNetworkOidcDisabled doc = doc)
  ∧ (∀ doc : Item, (getPath doc ["network", "oidc"]).isSome = true →
        ensureNetworkOidcTlsEnabled doc = doc)
  ∧ (∀ doc : Item, (getPath doc ["network", "oidc", "client"]).isSome = true →
        ensureNetworkOidcClient doc = doc) := by
  refine ⟨?_, ?_, ?_, ?_, ?_⟩
  · intro s p base
    unfold materializePersistent
    cases prepare_cleo_configuration s p <;> rfl
  · intro doc hdoc
    obtain ⟨v, hv⟩ := Option.isSome_iff_exists.mp hdoc
    simp [ensureNetworkCarl, hv]
  · intro doc hdoc
    obtain ⟨v, hv⟩ := Option.isSome_iff_exists.mp hdoc
    simp [ensureNetworkOidcDisabled, hv]
  · intro doc hdoc
    obtain ⟨v, hv⟩ := Option.isSome_iff_exists.mp hdoc
    simp [ensureNetworkOidcTlsEnabled, hv]
  · intro doc hdoc
    obtain ⟨v, hv⟩ := Option.isSome_iff_exists.mp hdoc
    simp [ensureNetworkOidcClient, hv]

/-- Witness for C3: double materialization at a concrete bundle, and each
ensure step left a document with the groups already present unchanged. -/
theorem persistent_merge_idempotent_witness :
    ((materializePersistent sampleDisabledSetup "/p" emptyDoc).bind
        (fun doc => materializePersistent sampleDisabledSetup "/p" doc) =
      materializePersistent sampleDisabledSetup "/p" emptyDoc) ∧
    ensureNetworkCarl sampleGroupsPresentDoc = sampleGroupsPresentDoc ∧
    ensureNetworkOidcDisabled sampleGroupsPresentDoc = sampleGroupsPresentDoc ∧
    ensureNetworkOidcTlsEnabled sampleGroupsPresentDoc = sampleGroupsPresentDoc ∧
    ensureNetworkOidcClient sampleGroupsPresentDoc = sampleGroupsPresentDoc :=
  ⟨persistent_merge_idempotent.1 sampleDisabledSetup "/p" emptyDoc,
   persistent_merge_idempotent.2.1 sampleGroupsPresentDoc rfl,
   persistent_merge_idempotent.2.2.1 sampleGroupsPresentDoc rfl,
   persistent_merge_idempotent.2.2.2.1 sampleGroupsPresentDoc rfl,
   persistent_merge_idempotent.2.2.2.2 sampleGroupsPresentDoc rfl⟩

/-- C4 counterexample: a base document with an unrelated top-level key
`custom` does not survive persistent-mode materialization — the produced
document contains no `custom` key. -/
theorem persistent_frame_counterexample :
    getPath sampleCustomBaseDoc ["custom"] =
      some (Item.value (TomlValue.str "keep")) ∧
    materializePersistent sampleDisabledSetup "/p" sampleCustomBaseDoc =
      Except.ok sampleDisabledDoc ∧
    getPath sampleDisabledDoc ["custom"] = none :=
  ⟨rfl, rfl, rfl⟩

/-- C4 amended: the persistent-mode materialization never reads the
pre-existing document — its result is the same for every base document (the
output is built from a fresh empty document and replaces the stored
configuration), so keys outside the `network` subtrees do not survive. -/
theorem persistent_frame_amended (s : CleoSetup) (p : String) (base base2 : Item) :
    materializePersistent s p base = materializePersistent s p base2 := rfl

/-- C5: the ephemeral-mode output lines come in the fixed order
TLS_DOMAIN_NAME_OVERRIDE, TLS_CA_CONTENT (double-quoted), CARL_HOST,
CARL_PORT, OIDC_ENABLED; with auth enabled, four further lines follow
(issuer URL, client id, client secret, scopes), and the scopes line is
always `""` regardless of the bundle's scopes. -/
theorem ephemeral_lines_fixed_order (s : CleoSetup) (h : String)
    (hhost : s.carl.host_str = some h) :
    (s.auth_config = AuthConfig.disabled →
      execute_ephemeral_lines s = Except.ok [
        "OPENDUT_CLEO_NETWORK_TLS_DOMAIN_NAME_OVERRIDE=" ++ h,
        "OPENDUT_CLEO_NETWORK_TLS_CA_CONTENT=\"" ++ s.ca.encode_as_string ++ "\"",
        "OPENDUT_CLEO_NETWORK_CARL_HOST=" ++ h,
        "OPENDUT_CLEO_NETWORK_CARL_PORT=" ++ toString (s.carl.port.getD 443),
        "OPENDUT_CLEO_NETWORK_OIDC_ENABLED=false"])
  ∧ (∀ (issuer : Url) (cid : ClientId) (csec : ClientSecret) (scopes : List Scope),
      s.auth_config = AuthConfig.enabled issuer cid csec scopes →
      execute_ephemeral_lines s = Except.ok [
        "OPENDUT_CLEO_NETWORK_TLS_DOMAIN_NAME_OVERRIDE=" ++ h,
        "OPENDUT_CLEO_NETWORK_TLS_CA_CONTENT=\"" ++ s.ca.encode_as_string ++ "\"",
        "OPENDUT_CLEO_NETWORK_CARL_HOST=" ++ h,
        "OPENDUT_CLEO_NETWORK_CARL_PORT=" ++ toString (s.carl.port.getD 443),
        "OPENDUT_CLEO_NETWORK_OIDC_ENABLED=true",
        "OPENDUT_CLEO_NETWORK_OIDC_CLIENT_ISSUER_URL=" ++ issuer.asString,
        "OPENDUT_CLEO_NETWORK_OIDC_CLIENT_ID=" ++ cid.value,
        "OPENDUT_CLEO_NETWORK_OIDC_CLIENT_SECRET=" ++ csec.value,
        "OPENDUT_CLEO_NETWORK_OIDC_CLIENT_SCOPES=\"\""]) := by
  obtain ⟨⟨chost, cport, cstr⟩, ca, auth⟩ := s
  cases hhost
  constructor
  · intro hauth
    cases hauth
    rfl
  · intro issuer cid csec scopes hauth
    cases hauth
    rfl

/-- Witness for C5 at the two concrete test bundles. -/
theorem ephemeral_lines_fixed_order_witness :
    execute_ephemeral_lines sampleDisabledSetup = Except.ok [
      "OPENDUT_CLEO_NETWORK_TLS_DOMAIN_NAME_OVERRIDE=carl",
      "OPENDUT_CLEO_NETWORK_TLS_CA_CONTENT=\"PEM\"",
      "OPENDUT_CLEO_NETWORK_CARL_HOST=carl",
      "OPENDUT_CLEO_NETWORK_CARL_PORT=1234",
      "OPENDUT_CLEO_NETWORK_OIDC_ENABLED=false"] ∧
    execute_ephemeral_lines sampleEnabledSetup = Except.ok [
      "OPENDUT_CLEO_NETWORK_TLS_DOMAIN_NAME_OVERRIDE=carl",
      "OPENDUT_CLEO_NETWORK_TLS_CA_CONTENT=\"PEM\"",
      "OPENDUT_CLEO_NETWORK_CARL_HOST=carl",
      "OPENDUT_CLEO_NETWORK_CARL_PORT=1234",
      "OPENDUT_CLEO_NETWORK_OIDC_ENABLED=true",
      "OPENDUT_CLEO_NETWORK_OIDC_CLIENT_ISSUER_URL=https://auth:1234/",
      "OPENDUT_CLEO_NETWORK_OIDC_CLIENT_ID=testClient",
      "OPENDUT_CLEO_NETWORK_OIDC_CLIENT_SECRET=secret",
      "OPENDUT_CLEO_NETWORK_OIDC_CLIENT_SCOPES=\"\""] :=
  ⟨(ephemeral_lines_fixed_order sampleDisabledSetup "carl" rfl).1 rfl,
   (ephemeral_lines_fixed_order sampleEnabledSetup "carl" rfl).2
     { host_str := some "auth", port := some 1234, asString := "https://auth:1234/" }
     { value := "testClient" } { value := "secret" } [] rfl⟩

/-- C6: when the CARL URL omits an explicit port, both the ephemeral
CARL_PORT line and the persistent `network.carl.port` value are 443; an
explicit port is used as given. -/
theorem carl_port_default (s : CleoSetup) (h p : String)
    (hhost : s.carl.host_str = some h) :
    (s.carl.port = none →
      (∃ lines, execute_ephemeral_lines s = Except.ok lines ∧
        lines[3]? = some "OPENDUT_CLEO_NETWORK_CARL_PORT=443") ∧
      (∃ doc, prepare_cleo_configuration s p = Except.ok doc ∧
        getPath doc ["network", "carl", "port"] =
          some (Item.value (TomlValue.int 443))))
  ∧ (∀ n : Nat, s.carl.port = some n →
      (∃ lines, execute_ephemeral_lines s = Except.ok lines ∧
        lines[3]? = some ("OPENDUT_CLEO_NETWORK_CARL_PORT=" ++ toString n)) ∧
      (∃ doc, prepare_cleo_configuration s p = Except.ok doc ∧
        getPath doc ["network", "carl", "port"] =
          some (Item.value (TomlValue.int (Int.ofNat n))))) := by
  obtain ⟨⟨chost, cport, cstr⟩, ca, auth⟩ := s
  cases hhost
  constructor
  · rintro rfl
    constructor
    · cases auth <;>
        (refine ⟨_, rfl, ?_⟩
         simp only [execute_ephemeral_lines, List.cons_append, List.nil_append,
           List.getElem?_cons_succ, List.getElem?_cons_zero]
         decide)
    · cases auth <;>
        (refine ⟨_, rfl, ?_⟩
         simp [prepare_cleo_configuration, ensureNetworkCarl, ensureNetworkOidcDisabled,
           ensureNetworkOidcTlsEnabled, ensureNetworkOidcClient, emptyDoc, freshTable])
  · rintro n rfl
    constructor
    · cases auth <;>
        (refine ⟨_, rfl, ?_⟩
         simp only [execute_ephemeral_lines, List.cons_append, List.nil_append,
           List.getElem?_cons_succ, List.getElem?_cons_zero]
         rfl)
    · cases auth <;>
        (refine ⟨_, rfl, ?_⟩
         simp [prepare_cleo_configuration, ensureNetworkCarl, ensureNetworkOidcDisabled,
           ensureNetworkOidcTlsEnabled, ensureNetworkOidcClient, emptyDoc, freshTable])

/-- Witness for C6 at a portless bundle and at the port-1234 test bundle. -/
theorem carl_port_default_witness :
    ((∃ lines, execute_ephemeral_lines samplePortlessSetup = Except.ok lines ∧
        lines[3]? = some "OPENDUT_CLEO_NETWORK_CARL_PORT=443") ∧
      (∃ doc, prepare_cleo_configuration samplePortlessSetup "/p" = Except.ok doc ∧
        getPath doc ["network", "carl", "port"] =
          some (Item.value (TomlValue.int 443)))) ∧
    ((∃ lines, execute_ephemeral_lines sampleDisabledSetup = Except.ok lines ∧
        lines[3]? = some ("OPENDUT_CLEO_NETWORK_CARL_PORT=" ++ toString 1234)) ∧
      (∃ doc, prepare_cleo_configuration sampleDisabledSetup "/p" = Except.ok doc ∧
        getPath doc ["network", "carl", "port"] =
          some (Item.value (TomlValue.int (Int.ofNat 1234))))) :=
  ⟨(carl_port_default samplePortlessSetup "carl" "/p" rfl).1 rfl,
   (carl_port_default sampleDisabledSetup "carl" "/p" rfl).2 1234 rfl⟩

/-- C7: with auth enabled, `network.oidc.client.scopes` is the scope values
joined by a comma in input order; an empty scope list yields the empty
string. -/
theorem persistent_scopes_join (s : CleoSetup) (p h : String) (issuer : Url)
    (cid : ClientId) (csec : ClientSecret) (scopes : List Scope)
    (hhost : s.carl.host_str = some h)
    (hauth : s.auth_config = AuthConfig.enabled issuer cid csec scopes) :
    ∃ doc, prepare_cleo_configuration s p = Except.ok doc ∧
      getPath doc ["network", "oidc", "client", "scopes"] =
        some (Item.value (TomlValue.str
          (String.intercalate "," (scopes.map Scope.value)))) ∧
      (scopes = [] →
        getPath doc ["network", "oidc", "client", "scopes"] =
          some (Item.value (TomlValue.str ""))) := by
  obtain ⟨⟨chost, cport, cstr⟩, ca, auth⟩ := s
  cases hhost
  cases hauth
  refine ⟨_, rfl, ?_, ?_⟩
  · simp [prepare_cleo_configuration, ensureNetworkCarl, ensureNetworkOidcTlsEnabled,
      ensureNetworkOidcClient, emptyDoc, freshTable]
  · rintro rfl
    simp [prepare_cleo_configuration, ensureNetworkCarl, ensureNetworkOidcTlsEnabled,
      ensureNetworkOidcClient, emptyDoc, freshTable, String.intercalate]

/-- Witness for C7: scopes `["a","b"]` join to `"a,b"`; no scopes join to
the empty string. -/
theorem persistent_scopes_join_witness :
    (∃ doc, prepare_cleo_configuration sampleScopedSetup "/p" = Except.ok doc ∧
      getPath doc ["network", "oidc", "client", "scopes"] =
        some (Item.value (TomlValue.str "a,b")) ∧
      ([{ value := "a" }, { value := "b" }] = ([] : List Scope) →
        getPath doc ["network", "oidc", "client", "scopes"] =
          some (Item.value (TomlValue.str "")))) ∧
    (∃ doc, prepare_cleo_configuration sampleEnabledSetup "/p" = Except.ok doc ∧
      getPath doc ["network", "oidc", "client", "scopes"] =
        some (Item.value (TomlValue.str "")) ∧
      (([] : List Scope) = [] →
        getPath doc ["network", "oidc", "client", "scopes"] =
          some (Item.value (TomlValue.str "")))) :=
  ⟨persistent_scopes_join sampleScopedSetup "/p" "carl"
     { host_str := some "auth", port := some 1234, asString := "https://auth:1234/" }
     { value := "testClient" } { value := "secret" }
     [{ value := "a" }, { value := "b" }] rfl rfl,
   persistent_scopes_join sampleEnabledSetup "/p" "carl"
     { host_str := some "auth", port := some 1234, asString := "https://auth:1234/" }
     { value := "testClient" } { value := "secret" } [] rfl rfl⟩

/-- C8 counterexample: on a bundle whose CARL URL has no host, both modes
fail through the `.expect(..)` panic — an unchecked crash — not through a
normal error result. -/
theorem missing_host_counterexample :
    isErrResult (execute_ephemeral_lines sampleHostlessSetup) = false ∧
    isPanicResult (execute_ephemeral_lines sampleHostlessSetup) = true ∧
    isErrResult (execute_persistent sampleHostlessSetup CleoSetupType.user "/p") = false ∧
    isPanicResult (execute_persistent sampleHostlessSetup CleoSetupType.user "/p") = true ∧
    execute_ephemeral_lines sampleHostlessSetup =
      Except.error (RunError.panic "Host name should be defined in CARL URL.") :=
  ⟨rfl, rfl, rfl, rfl, rfl⟩

/-- C8 amended: a bundle whose CARL URL has no host makes both modes fail
fatally with the diagnostic "Host name should be defined in CARL URL." and
a non-zero exit status, but through an expectation-style panic (an
unchecked crash), not through a normal fail-fast error result. -/
theorem missing_host_panics (s : CleoSetup) (pt : CleoSetupType) (path : String)
    (hhost : s.carl.host_str = none) :
    execute_ephemeral_lines s =
      Except.error (RunError.panic "Host name should be defined in CARL URL.") ∧
    execute_persistent s pt path =
      Except.error (RunError.panic "Host name should be defined in CARL URL.") := by
  constructor
  · simp [execute_ephemeral_lines, hhost]
  · simp [execute_persistent, prepare_cleo_configuration, hhost]

/-- Witness for C8 at the concrete hostless bundle. -/
theorem missing_host_panics_witness :
    execute_ephemeral_lines sampleHostlessSetup =
      Except.error (RunError.panic "Host name should be defined in CARL URL.") ∧
    execute_persistent sampleHostlessSetup CleoSetupType.system "/p" =
      Except.error (RunError.panic "Host name should be defined in CARL URL.") :=
  missing_host_panics sampleHostlessSetup CleoSetupType.system "/p" rfl

/-- C9: every persistent run writes the configuration at `User` scope,
while the certificate is written at the scope converted from the CLI
selection (`System` maps to `System`, `User` to `User`). -/
theorem config_written_at_user_scope (s : CleoSetup) (pt : CleoSetupType)
    (path : String) (r : PersistentRun)
    (hrun : execute_persistent s pt path = Except.ok r) :
    r.config_scope = SetupType.user ∧
    r.certificate_scope = setupTypeFrom pt ∧
    setupTypeFrom CleoSetupType.system = SetupType.system ∧
    setupTypeFrom CleoSetupType.user = SetupType.user := by
  unfold execute_persistent at hrun
  cases hprep : prepare_cleo_configuration s path with
  | error e => rw [hprep] at hrun; cases hrun
  | ok doc =>
      rw [hprep] at hrun
      cases hrun
      exact ⟨rfl, rfl, rfl, rfl⟩

/-- Witness for C9 at a concrete `--persistent system` run: the certificate
goes to system scope, the configuration to user scope. -/
theorem config_written_at_user_scope_witness :
    sampleDisabledRun.config_scope = SetupType.user ∧
    sampleDisabledRun.certificate_scope = setupTypeFrom CleoSetupType.system ∧
    setupTypeFrom CleoSetupType.system = SetupType.system ∧
    setupTypeFrom CleoSetupType.user = SetupType.user :=
  config_written_at_user_scope sampleDisabledSetup CleoSetupType.system "/p"
    sampleDisabledRun rfl

/-- C10: the persistent-mode document has exactly one top-level key,
`network`, whose sub-keys all lie among `carl`, `oidc`, `tls` — the
materializer builds its output from a fresh empty document. -/
theorem persistent_only_network_keys (s : CleoSetup) (p : String) (doc : Item)
    (hprep : prepare_cleo_configuration s p = Except.ok doc) :
    keysOf doc = ["network"] ∧
    (getPath doc ["network"]).isSome = true ∧
    keysOf ((getPath doc ["network"]).getD emptyDoc) ⊆ ["carl", "oidc", "tls"] := by
  obtain ⟨⟨chost, cport, cstr⟩, ca, auth⟩ := s
  cases chost with
  | none => cases hprep
  | some h =>
    cases auth with
    | disabled =>
        cases hprep
        refine ⟨?_, ?_, ?_⟩ <;>
          simp [keysOf, ensureNetworkCarl, ensureNetworkOidcDisabled, emptyDoc, freshTable]
    | enabled issuer cid csec scopes =>
        cases hprep
        refine ⟨?_, ?_, ?_⟩ <;>
          simp [keysOf, ensureNetworkCarl, ensureNetworkOidcTlsEnabled,
            ensureNetworkOidcClient, emptyDoc, freshTable]

/-- Witness for C10 at the disabled-auth test bundle. -/
theorem persistent_only_network_keys_witness :
    keysOf sampleDisabledDoc = ["network"] ∧
    (getPath sampleDisabledDoc ["network"]).isSome = true ∧
    keysOf ((getPath sampleDisabledDoc ["network"]).getD emptyDoc) ⊆
      ["carl", "oidc", "tls"] :=
  persistent_only_network_keys sampleDisabledSetup "/p" sampleDisabledDoc rfl

end CleoSetupVerification
